import Mathlib

/-!
Verification of the Contract-Buddy clause prioritization and matching
pipeline, shallowly embedded from `src/server/ai.ts` (first revision,
lines 1-347), `src/server/document-ai.ts` and the shared schema.

Modelling conventions:
* JavaScript strings are `List Char` (UTF-16 code units of the sources are
  ASCII wherever the pipeline inspects them); `String.prototype.includes`
  and `toLowerCase` are embedded below.
* Nullable fields (`string | null`) are `Option`.
* The untrusted network call of `generateAnalysis` is a parameter:
  `none` stands for every failure mode that the source maps to the
  fallback (thrown API error, missing message content, a JSON.parse
  exception, or a missing / falsy `negotiationPoints` field), and
  `some pts` stands for a successfully parsed truthy `negotiationPoints`
  value (note that in JavaScript an empty array is truthy).
* `Array.prototype.sort` with the comparator `priorityA - priorityB` is a
  stable sort (guaranteed by the ECMAScript specification); it is embedded
  as a stable insertion sort `sortByKey`.
-/

/-- A JavaScript string, as its list of characters. -/
abbrev Text := List Char

/-- Embeds `String.prototype.toLowerCase` (ASCII case folding). -/
def lowerText (s : Text) : Text := s.map Char.toLower

/-- Auxiliary for `containsSub`: the first argument is a leading segment of
the second. -/
def listStartsWith : Text → Text → Bool
  | [], _ => true
  | _ :: _, [] => false
  | a :: as, b :: bs => a == b && listStartsWith as bs

/-- Embeds `hay.includes(needle)` from JavaScript: the needle occurs as a
contiguous substring of the haystack. -/
def containsSub (hay needle : Text) : Bool :=
  match hay with
  | [] => needle.isEmpty
  | _ :: t => listStartsWith needle hay || containsSub t needle

/-- Row of the `clauses` table of `shared/schema.ts`; `type` and
`riskLevel` are nullable columns. -/
structure Clause where
  id : Nat := 0
  documentId : Nat := 0
  content : Text
  type : Option Text := none
  riskLevel : Option Text := none
  position : Nat := 0
deriving DecidableEq

/-- Row of the `gold_standard_clauses` table of `shared/schema.ts`; the
`type` column is not nullable. -/
structure GoldStandardClause where
  id : Nat := 0
  type : Text
  content : Text
  embedding : Option Text := none
  metadata : Option Text := none
deriving DecidableEq

/-- The `NegotiationPointSchema` zod object of `shared/schema.ts`; the
`riskLevel` values used by the pipeline are the strings of the zod
enumeration `high | medium | low`. -/
structure NegotiationPoint where
  title : Text
  originalClause : Text
  explanation : Text
  suggestion : Text
  riskLevel : Text
deriving DecidableEq

/-- The `MatchedClause` interface of `src/server/ai.ts`. -/
structure MatchedClause where
  userClause : Clause
  goldStandard : GoldStandardClause
  similarity : ℚ
deriving DecidableEq

/-- The `DocumentAIClause` interface of `src/server/document-ai.ts`; its
`type` field is a plain (non-nullable) string. -/
structure DocumentAIClause where
  content : Text
  type : Text
  position : Nat := 0
  risk_level : Option Text := none
deriving DecidableEq

/-- The `CLAUSE_TYPE_PRIORITY` object literal, identical in
`src/server/ai.ts` and `src/server/document-ai.ts`. -/
def CLAUSE_TYPE_PRIORITY : List (Text × Nat) :=
  [(("limitation_of_liability").data, 1),
   (("indemnification").data, 2),
   (("intellectual_property").data, 3),
   (("termination").data, 4),
   (("payment_terms").data, 5),
   (("confidentiality").data, 6),
   (("warranty").data, 7),
   (("governing_law").data, 8),
   (("assignment").data, 9),
   (("other").data, 10)]

/-- Embeds `CLAUSE_TYPE_PRIORITY[key] || 10`: a key absent from the object
yields `undefined`, which `|| 10` replaces by 10 (every value present in
the table is nonzero, so `|| 10` never rewrites a found value). -/
def lookupPriorityKey (key : Text) : Nat :=
  match CLAUSE_TYPE_PRIORITY.lookup key with
  | some n => n
  | none => 10

/-- Embeds `CLAUSE_TYPE_PRIORITY[a.userClause.type || 'other'] || 10` from
`src/server/ai.ts`: a null, undefined or empty (falsy) `type` is replaced
by the key `'other'` before the lookup. -/
def priorityOfClauseType (t : Option Text) : Nat :=
  lookupPriorityKey (match t with
    | none => ("other").data
    | some s => if s = [] then ("other").data else s)

/-- Sort key of the comparator in `findMatchingClauses`. -/
def matchedPriority (m : MatchedClause) : Nat :=
  priorityOfClauseType m.userClause.type

/-- Stable insertion of one element: the element passes over strictly
smaller keys and lands in front of the first key greater than or equal to
its own, so that an element earlier in the input stays in front of every
equal-key element inserted before it. -/
def insertByKey {α : Type} (key : α → Nat) (x : α) : List α → List α
  | [] => [x]
  | y :: ys => if key y < key x then y :: insertByKey key x ys else x :: y :: ys

/-- Stable sort by a natural-number key, embedding
`Array.prototype.sort` with the comparator `key a - key b` (stable per the
ECMAScript specification). -/
def sortByKey {α : Type} (key : α → Nat) : List α → List α
  | [] => []
  | x :: xs => insertByKey key x (sortByKey key xs)

/-- Embeds `identifyClauseType` of `src/server/document-ai.ts`: the
optional hint is lowercased (`hint?.toLowerCase() || ''`) and checked
first, then the lowercased content, each rule an early return. -/
def identifyClauseType (content : Text) (hint : Option Text) : Text :=
  let lowerContent := lowerText content
  let lowerHint := match hint with
    | some h => lowerText h
    | none => []
  if containsSub lowerHint (("liability").data) || containsSub lowerHint (("limitation").data) then
    ("limitation_of_liability").data
  else if containsSub lowerHint (("indemnif").data) then
    ("indemnification").data
  else if containsSub lowerHint (("intellectual").data) || containsSub lowerHint (("ip").data) then
    ("intellectual_property").data
  else if containsSub lowerHint (("terminat").data) then
    ("termination").data
  else if containsSub lowerHint (("payment").data) || containsSub lowerHint (("fee").data) then
    ("payment_terms").data
  else if containsSub lowerHint (("confidential").data) then
    ("confidentiality").data
  else if containsSub lowerHint (("warrant").data) then
    ("warranty").data
  else if containsSub lowerContent (("limitation of liability").data) ||
      (containsSub lowerContent (("liable").data) && containsSub lowerContent (("not exceed").data)) then
    ("limitation_of_liability").data
  else if containsSub lowerContent (("indemnif").data) || containsSub lowerContent (("hold harmless").data) then
    ("indemnification").data
  else if containsSub lowerContent (("intellectual property").data) ||
      containsSub lowerContent (("copyright").data) ||
      containsSub lowerContent (("patent").data) ||
      containsSub lowerContent (("trademark").data) then
    ("intellectual_property").data
  else if containsSub lowerContent (("terminat").data) || containsSub lowerContent (("cancel").data) then
    ("termination").data
  else if containsSub lowerContent (("payment").data) ||
      containsSub lowerContent (("fee").data) ||
      containsSub lowerContent (("invoice").data) ||
      containsSub lowerContent (("price").data) then
    ("payment_terms").data
  else if containsSub lowerContent (("confidential").data) || containsSub lowerContent (("proprietary").data) then
    ("confidentiality").data
  else if containsSub lowerContent (("warrant").data) && !containsSub lowerContent (("without warrant").data) then
    ("warranty").data
  else if containsSub lowerContent (("governing law").data) || containsSub lowerContent (("jurisdiction").data) then
    ("governing_law").data
  else if containsSub lowerContent (("assign").data) then
    ("assignment").data
  else
    ("other").data

example : identifyClauseType (("cancel").data) none = ("termination").data := by decide

example : identifyClauseType (("This Agreement may TERMINATE at will").data) none
    = ("termination").data := by decide

/-- Embeds `selectTop5Clauses` of `src/server/document-ai.ts`: sort by the
priority table (`CLAUSE_TYPE_PRIORITY[a.type] || 10`) and keep the first
five entries. -/
def selectTop5Clauses (clauses : List DocumentAIClause) : List DocumentAIClause :=
  (sortByKey (fun c => lookupPriorityKey c.type) clauses).take 5

/-- Body of the per-clause iteration of `findMatchingClauses` in
`src/server/ai.ts`: filter the gold standards by exact type equality and
take the first with similarity 0.8; otherwise fall back to the first gold
standard of type `'other'`, or failing that the first gold standard at
all, with similarity 0.5; with no gold standard available nothing is
pushed (`goldStandardClauses[0]` is `undefined`, hence falsy). -/
def matchOne (goldStandardClauses : List GoldStandardClause) (userClause : Clause) :
    Option MatchedClause :=
  let matchingGoldStandards := goldStandardClauses.filter
    (fun gold => userClause.type == some gold.type)
  match matchingGoldStandards with
  | g :: _ => some { userClause := userClause, goldStandard := g, similarity := 0.8 }
  | [] =>
    let fallbackGold := match goldStandardClauses.find? (fun g => g.type == ("other").data) with
      | some g => some g
      | none => goldStandardClauses.head?
    match fallbackGold with
    | some g => some { userClause := userClause, goldStandard := g, similarity := 0.5 }
    | none => none

/-- The accumulation loop of `findMatchingClauses` (`src/server/ai.ts`,
lines 92-119): one optional push per input clause, in input order. -/
def findMatchingLoop (goldStandardClauses : List GoldStandardClause) :
    List Clause → List MatchedClause
  | [] => []
  | c :: cs =>
    match matchOne goldStandardClauses c with
    | some m => m :: findMatchingLoop goldStandardClauses cs
    | none => findMatchingLoop goldStandardClauses cs

/-- The Priority Ranker of the spec (`rank(pairs, limit)`): stable
ascending sort by the priority table, then truncation to the first
`limit` entries.  The source hard-codes `limit = 5`
(`sortedClauses.slice(0, 5)` in `src/server/ai.ts`). -/
def rank (pairs : List MatchedClause) (limit : Nat) : List MatchedClause :=
  (sortByKey matchedPriority pairs).take limit

/-- Embeds `findMatchingClauses` of `src/server/ai.ts`: the matching loop
followed by the priority sort and `slice(0, 5)`.  The
`clauseEmbeddings` argument is accepted and ignored exactly as in the
source. -/
def findMatchingClauses (clauses : List Clause) (clauseEmbeddings : List (List ℚ))
    (goldStandardClauses : List GoldStandardClause) : List MatchedClause :=
  (sortByKey matchedPriority (findMatchingLoop goldStandardClauses clauses)).take 5

/-- Wraps an integer into the signed 32-bit range, as `| 0` does in
JavaScript. -/
def toInt32 (x : Int) : Int := (x + 2 ^ 31) % 2 ^ 32 - 2 ^ 31

/-- One step of the mock-embedding hash of `src/server/ai.ts`:
`hash = ((hash << 5) - hash) + text.charCodeAt(j) + i; hash |= 0`.
The shift wraps to 32 bits on its own before the additions, which are
exact in double precision; `| 0` wraps the final value. -/
def charCodeHashStep (i : Nat) (hash : Int) (c : Char) : Int :=
  toInt32 (toInt32 (hash * 32) - hash + c.toNat + i)

/-- One component of the mock embedding: hash the first 100 characters and
normalize `(hash % 1000) / 1000` (JavaScript `%` truncates toward zero,
which is `Int.tmod`). -/
def embeddingComponent (text : Text) (i : Nat) : ℚ :=
  let hash := (text.take 100).foldl (charCodeHashStep i) 0
  ((Int.tmod hash 1000 : Int) : ℚ) / 1000

/-- Embeds `generateEmbeddings` of `src/server/ai.ts` (deterministic mock
embeddings of 128 components per text). -/
def generateEmbeddings (texts : List Text) : List (List ℚ) :=
  texts.map (fun t => (List.range 128).map (embeddingComponent t))

/-- Title-case helper of the generic fallback branch, embedding the
regular-expression word class `\w` (ASCII letters, digits, underscore). -/
def isWordChar (c : Char) : Bool := c.isAlphanum || c == '_'

/-- Embeds `replace(/\b\w/g, l => l.toUpperCase())`: uppercase every word
character standing at a word boundary; the Boolean records whether the
previous character was a word character. -/
def upperAtBoundaries : Bool → Text → Text
  | _, [] => []
  | prevWord, c :: cs =>
    (if isWordChar c && !prevWord then c.toUpper else c) :: upperAtBoundaries (isWordChar c) cs

/-- Embeds `type?.replace(/_/g, ' ').replace(/\b\w/g, l => l.toUpperCase())
|| 'Contract Provision'` from the generic fallback branch of
`src/server/ai.ts`: null, undefined and the empty string all fall through
to the default title. -/
def clauseTitleOf (ty : Option Text) : Text :=
  match ty with
  | none => ("Contract Provision").data
  | some t =>
    let r := upperAtBoundaries false (t.map (fun c => if c == '_' then ' ' else c))
    if r = [] then ("Contract Provision").data else r

/-- Dedicated fallback explanation for `limitation_of_liability`. -/
def lolExplanationText : Text :=
  ("This clause restricts how much the supplier must pay if something goes wrong. The current version may cap liability too low to adequately protect you in case of major issues, and may not exclude gross negligence or data breaches.").data

/-- Dedicated fallback rewritten clause for `limitation_of_liability`. -/
def lolSuggestionText : Text :=
  ("LIMITATION OF LIABILITY: Notwithstanding anything to the contrary, neither party\x27s aggregate liability arising out of or related to this Agreement shall exceed the greater of: (i) two times the total fees paid or payable under this Agreement in the twelve (12) months preceding the claim, or (ii) $500,000. The foregoing limitations shall not apply to: (a) either party\x27s gross negligence or willful misconduct; (b) breach of confidentiality obligations; (c) infringement of the other party\x27s intellectual property rights; (d) data breaches or unauthorized access to personal information; or (e) either party\x27s indemnification obligations under this Agreement.").data

/-- Dedicated fallback explanation for `termination`. -/
def terminationExplanationText : Text :=
  ("This clause controls how and when either party can end the agreement. Unbalanced termination rights can leave you vulnerable to sudden service disruption or unfavorable long-term commitments.").data

/-- Dedicated fallback rewritten clause for `termination`. -/
def terminationSuggestionText : Text :=
  ("TERMINATION: Either party may terminate this Agreement: (a) for convenience by providing ninety (90) days prior written notice to the other party; (b) immediately upon written notice if the other party materially breaches this Agreement and fails to cure such breach within thirty (30) days of receiving written notice; or (c) immediately if the other party becomes insolvent, files for bankruptcy, or ceases business operations. Upon termination, Supplier shall provide reasonable transition assistance for up to sixty (60) days to facilitate migration to an alternative provider. Customer shall pay only for services rendered through the effective termination date.").data

/-- Dedicated fallback explanation for `intellectual_property`. -/
def ipExplanationText : Text :=
  ("This clause determines who owns the work created under this agreement. If not properly negotiated, you could pay for custom work but not actually own it, limiting your ability to use, modify, or transfer it freely.").data

/-- Dedicated fallback rewritten clause for `intellectual_property`. -/
def ipSuggestionText : Text :=
  ("INTELLECTUAL PROPERTY: Customer shall own all right, title, and interest in and to all custom work product, deliverables, and materials created specifically for Customer under this Agreement (\"Custom IP\"). Supplier hereby assigns to Customer all Custom IP, and shall execute any documents reasonably necessary to perfect such assignment. Supplier retains ownership of its pre-existing intellectual property, tools, methodologies, and general know-how (\"Supplier IP\"). Supplier grants Customer a perpetual, irrevocable, worldwide, royalty-free license to use any Supplier IP incorporated into the Custom IP. Neither party shall use the other party\x27s trademarks or brand without prior written consent.").data

/-- Dedicated fallback explanation for `indemnification`. -/
def indemnificationExplanationText : Text :=
  ("This clause determines who pays legal costs and damages if someone sues over the work performed. One-sided indemnification could leave you financially responsible for the supplier\x27s mistakes or intellectual property violations.").data

/-- Dedicated fallback rewritten clause for `indemnification`. -/
def indemnificationSuggestionText : Text :=
  ("INDEMNIFICATION: Supplier shall indemnify, defend, and hold harmless Customer from and against any and all claims, damages, losses, and expenses (including reasonable attorneys\x27 fees) arising from: (a) any claim that the services or deliverables infringe or misappropriate any third party\x27s intellectual property rights; (b) Supplier\x27s breach of its obligations under this Agreement; or (c) Supplier\x27s negligence or willful misconduct. Customer shall indemnify Supplier from claims arising solely from Customer\x27s misuse of the deliverables in violation of this Agreement. The indemnified party shall promptly notify the indemnifying party of any claim and cooperate in the defense, and the indemnifying party shall have sole control of the defense and settlement.").data

/-- Dedicated fallback explanation for `payment_terms`. -/
def paymentExplanationText : Text :=
  ("This clause establishes when and how you must pay. Unfavorable payment terms could require upfront payment before delivery, impose excessive late fees, or prevent you from disputing incorrect charges.").data

/-- Dedicated fallback rewritten clause for `payment_terms`. -/
def paymentSuggestionText : Text :=
  ("PAYMENT TERMS: Customer shall pay invoiced amounts within thirty (30) days of invoice date via wire transfer or check. Supplier shall submit detailed invoices with supporting documentation for all fees. Customer may withhold payment and provide written notice if it disputes any charges in good faith; parties shall work together to resolve disputes within fifteen (15) days. Undisputed amounts remain due per the original schedule. Late payments shall accrue interest at the lesser of 1.5% per month or the maximum rate permitted by law. All fees are exclusive of applicable taxes, which Customer shall pay or provide valid exemption certificates.").data

/-- Dedicated fallback explanation for `confidentiality`. -/
def confidentialityExplanationText : Text :=
  ("This clause protects sensitive information shared during the business relationship. One-sided or overly broad confidentiality obligations could restrict your ability to discuss your own business or use general knowledge gained during the relationship.").data

/-- Dedicated fallback rewritten clause for `confidentiality`. -/
def confidentialitySuggestionText : Text :=
  ("CONFIDENTIALITY: Each party agrees to maintain in confidence all Confidential Information disclosed by the other party and to use such information only for purposes of this Agreement. \"Confidential Information\" means non-public information marked as confidential or that reasonably should be considered confidential. Confidential Information excludes information that: (a) is or becomes publicly available through no breach of this Agreement; (b) was rightfully known prior to disclosure; (c) is independently developed without use of the other party\x27s Confidential Information; or (d) is rightfully received from a third party without confidentiality obligations. These obligations survive for five (5) years after termination of this Agreement.").data

/-- Dedicated fallback explanation for `warranty`. -/
def warrantyExplanationText : Text :=
  ("This clause establishes what the supplier promises about their work quality and what remedies you have if the work is defective. Weak warranties or disclaimer clauses can leave you with no recourse if deliverables don\x27t meet your needs.").data

/-- Dedicated fallback rewritten clause for `warranty`. -/
def warrantySuggestionText : Text :=
  ("WARRANTIES: Supplier warrants that: (a) the services shall be performed in a professional and workmanlike manner consistent with industry standards; (b) the deliverables shall materially conform to the specifications agreed in the Statement of Work; (c) the deliverables shall not infringe any third party\x27s intellectual property rights; and (d) Supplier has the full right and authority to enter into this Agreement and grant the rights granted herein. If any deliverables do not conform to these warranties, Supplier shall re-perform the non-conforming services or replace the non-conforming deliverables at no additional charge within thirty (30) days of notice. If Supplier fails to cure the breach within such period, Customer may terminate the affected portion and receive a pro-rata refund.").data

/-- Dedicated fallback explanation for `governing_law`. -/
def governingLawExplanationText : Text :=
  ("This clause determines which state\x27s laws apply and where lawsuits must be filed. Unfavorable jurisdiction could force you to litigate in a distant, expensive forum or under laws that don\x27t protect your interests as well.").data

/-- Dedicated fallback rewritten clause for `governing_law`. -/
def governingLawSuggestionText : Text :=
  ("GOVERNING LAW AND JURISDICTION: This Agreement shall be governed by and construed in accordance with the laws of the State of [Your State], without regard to its conflict of laws principles. Each party irrevocably consents to the exclusive jurisdiction and venue of the state and federal courts located in [Your County, Your State] for any disputes arising out of or relating to this Agreement. Each party waives any objection to such jurisdiction or venue on the grounds of inconvenient forum or otherwise.").data

/-- Explanation of the generic provision branch. -/
def genericExplanationText : Text :=
  ("This provision should be carefully reviewed to ensure it adequately protects your interests and maintains fair balance between both parties. Consider whether the terms are reasonable, achievable, and aligned with your business objectives.").data

/-- Tail of the generic rewrite, following `REVISED <TITLE>` in the
template literal of the generic branch. -/
def genericRewriteTailText : Text :=
  (": This provision should be structured to ensure: (a) both parties have balanced rights and obligations; (b) all commitments have clearly defined scope, duration, and termination conditions; (c) liability for breach is appropriately allocated based on control and fault; (d) the customer retains reasonable flexibility to address changing business needs; and (e) dispute resolution procedures are fair and efficient. The specific terms should be reviewed by legal counsel and negotiated to reflect: clear performance standards, reasonable notice periods, mutual good faith obligations, and appropriate remedies for non-performance.").data

/-- Row of the `documents` table of `shared/schema.ts` (timestamps as
natural numbers); the analysis pipeline receives but never reads it. -/
structure Document where
  id : Nat := 0
  fileName : Text := []
  fileType : Text := []
  content : Text := []
  uploadedAt : Nat := 0
  expiresAt : Nat := 0
deriving DecidableEq

/-- The per-pair body of `getIntelligentFallbackWithMatchedClauses`
(`src/server/ai.ts`, first revision): dispatch on `match.userClause.type`
to one of eight dedicated canned analyses, or to the generic provision
analysis; every branch copies the actual clause text into
`originalClause`. -/
def fallbackOne (m : MatchedClause) : NegotiationPoint :=
  let ty := m.userClause.type
  let actualClauseText := m.userClause.content
  if ty = some (("limitation_of_liability").data) then
    { title := ("Limitation of Liability").data
      originalClause := actualClauseText
      explanation := lolExplanationText
      suggestion := lolSuggestionText
      riskLevel := ("high").data }
  else if ty = some (("termination").data) then
    { title := ("Termination Clause").data
      originalClause := actualClauseText
      explanation := terminationExplanationText
      suggestion := terminationSuggestionText
      riskLevel := ("medium").data }
  else if ty = some (("intellectual_property").data) then
    { title := ("Intellectual Property Rights").data
      originalClause := actualClauseText
      explanation := ipExplanationText
      suggestion := ipSuggestionText
      riskLevel := ("high").data }
  else if ty = some (("indemnification").data) then
    { title := ("Indemnification").data
      originalClause := actualClauseText
      explanation := indemnificationExplanationText
      suggestion := indemnificationSuggestionText
      riskLevel := ("medium").data }
  else if ty = some (("payment_terms").data) then
    { title := ("Payment Terms").data
      originalClause := actualClauseText
      explanation := paymentExplanationText
      suggestion := paymentSuggestionText
      riskLevel := ("low").data }
  else if ty = some (("confidentiality").data) then
    { title := ("Confidentiality").data
      originalClause := actualClauseText
      explanation := confidentialityExplanationText
      suggestion := confidentialitySuggestionText
      riskLevel := ("medium").data }
  else if ty = some (("warranty").data) then
    { title := ("Warranty").data
      originalClause := actualClauseText
      explanation := warrantyExplanationText
      suggestion := warrantySuggestionText
      riskLevel := ("medium").data }
  else if ty = some (("governing_law").data) then
    { title := ("Governing Law and Jurisdiction").data
      originalClause := actualClauseText
      explanation := governingLawExplanationText
      suggestion := governingLawSuggestionText
      riskLevel := ("low").data }
  else
    let clauseTitle := clauseTitleOf ty
    { title := clauseTitle
      originalClause := actualClauseText
      explanation := genericExplanationText
      suggestion := ("REVISED ").data ++ clauseTitle.map Char.toUpper ++ genericRewriteTailText
      riskLevel := ("medium").data }

/-- The rescue analysis of the final `if` of
`getIntelligentFallbackWithMatchedClauses` (reachable only if the loop
produced nothing for a non-empty input, which never happens). -/
def rescuePoint (m : MatchedClause) : NegotiationPoint :=
  { title := ("Contract Provision").data
    originalClause := m.userClause.content
    explanation := ("This provision should be reviewed by legal counsel to ensure it adequately protects your interests.").data
    suggestion := ("REVISED PROVISION: This clause should be rewritten to ensure balanced obligations, clear performance standards, and appropriate protections for both parties. Please consult with legal counsel for specific recommendations based on your business needs.").data
    riskLevel := ("medium").data }

/-- Embeds `getIntelligentFallbackWithMatchedClauses` of
`src/server/ai.ts` (first revision): one analysis per matched clause
(the `if (analysis)` guard of the source is always true since every
branch assigns one), then the rescue pass for the impossible empty-result
case. -/
def getIntelligentFallbackWithMatchedClauses (matchedClauses : List MatchedClause) :
    List NegotiationPoint :=
  let analysisResults := matchedClauses.map fallbackOne
  if analysisResults.length = 0 ∧ 0 < matchedClauses.length then
    matchedClauses.map rescuePoint
  else
    analysisResults

/-- Embeds `generateAnalysis` of `src/server/ai.ts`.  `hasApiKey` is the
environment test of the source; `response` abstracts the untrusted
external call as described in the file header: `none` for every failure
mode the source sends to the fallback, `some pts` for a successfully
parsed truthy `negotiationPoints` value (which the source returns
verbatim, without checking its length or shape). -/
def generateAnalysis (hasApiKey : Bool) (response : Option (List NegotiationPoint))
    (matchedClauses : List MatchedClause) : List NegotiationPoint :=
  if matchedClauses.length = 0 then []
  else if !hasApiKey then getIntelligentFallbackWithMatchedClauses matchedClauses
  else
    match response with
    | none => getIntelligentFallbackWithMatchedClauses matchedClauses
    | some pts => pts

/-- Embeds `analyzeContract` of `src/server/ai.ts`: mock embeddings, then
matching, then analysis; the surrounding `try` never observes a throw on
these total functions. -/
def analyzeContract (hasApiKey : Bool) (response : Option (List NegotiationPoint))
    (document : Document) (clauses : List Clause)
    (goldStandardClauses : List GoldStandardClause) : List NegotiationPoint :=
  let clauseEmbeddings := generateEmbeddings (clauses.map (fun c => c.content))
  let matchedClauses := findMatchingClauses clauses clauseEmbeddings goldStandardClauses
  generateAnalysis hasApiKey response matchedClauses

/-- Mutable-array heap for the frame property of the Matcher: the two
input arrays and the locally allocated `MatchedClause` arrays, each local
array addressed by its allocation index.  The only write primitives the
source uses are `push` onto a local array and the in-place
`Array.prototype.sort` of a local array. -/
structure Heap where
  clausesArr : List Clause
  goldsArr : List GoldStandardClause
  matchedArrs : List (List MatchedClause)

/-- Allocates the empty local array `allMatchedClauses = []`, returning
its address. -/
def heapAllocMatched (h : Heap) : Heap × Nat :=
  ({ h with matchedArrs := h.matchedArrs ++ [[]] }, h.matchedArrs.length)

/-- Embeds `allMatchedClauses.push(m)` at address `a`. -/
def heapPushMatched (h : Heap) (a : Nat) (m : MatchedClause) : Heap :=
  { h with matchedArrs := h.matchedArrs.set a ((h.matchedArrs.getD a []) ++ [m]) }

/-- Embeds the in-place `allMatchedClauses.sort(comparator)` at address
`a`. -/
def heapSortMatched (h : Heap) (a : Nat) : Heap :=
  { h with matchedArrs := h.matchedArrs.set a (sortByKey matchedPriority (h.matchedArrs.getD a [])) }

/-- The `for` loop of `findMatchingClauses`, reading the clause array and
pushing each matched pair onto the local array at address `a`. -/
def matchLoopHeap (goldStandardClauses : List GoldStandardClause) (a : Nat) :
    List Clause → Heap → Heap
  | [], h => h
  | c :: cs, h =>
    matchLoopHeap goldStandardClauses a cs
      (match matchOne goldStandardClauses c with
       | some m => heapPushMatched h a m
       | none => h)

/-- Heap-level embedding of `findMatchingClauses` of `src/server/ai.ts`:
allocate the local result array, run the matching loop over the clause
array, sort the local array in place, and return the final heap together
with `sortedClauses.slice(0, 5)`. -/
def findMatchingClausesHeap (h : Heap) : Heap × List MatchedClause :=
  let alloc := heapAllocMatched h
  let h1 := alloc.1
  let a := alloc.2
  let h2 := matchLoopHeap h1.goldsArr a h1.clausesArr h1
  let h3 := heapSortMatched h2 a
  (h3, (h3.matchedArrs.getD a []).take 5)

/-- Modelled from the words of claim C3, for comparison with the source
classifier `identifyClauseType`: case-insensitive keyword rules checked in
the claimed order (liability/damages/limit, then terminat*, then
intellectual property/copyright/patent/trademark, then indemnif*, then
payment/invoice/fee, then confidential*, then governing law/jurisdiction,
then warrant*, then assign*), first match wins, default `other`. -/
def claimClassify (content : Text) : Text :=
  let lowerContent := lowerText content
  if containsSub lowerContent (("liability").data) ||
      containsSub lowerContent (("damages").data) ||
      containsSub lowerContent (("limit").data) then
    ("limitation_of_liability").data
  else if containsSub lowerContent (("terminat").data) then
    ("termination").data
  else if containsSub lowerContent (("intellectual property").data) ||
      containsSub lowerContent (("copyright").data) ||
      containsSub lowerContent (("patent").data) ||
      containsSub lowerContent (("trademark").data) then
    ("intellectual_property").data
  else if containsSub lowerContent (("indemnif").data) then
    ("indemnification").data
  else if containsSub lowerContent (("payment").data) ||
      containsSub lowerContent (("invoice").data) ||
      containsSub lowerContent (("fee").data) then
    ("payment_terms").data
  else if containsSub lowerContent (("confidential").data) then
    ("confidentiality").data
  else if containsSub lowerContent (("governing law").data) ||
      containsSub lowerContent (("jurisdiction").data) then
    ("governing_law").data
  else if containsSub lowerContent (("warrant").data) then
    ("warranty").data
  else if containsSub lowerContent (("assign").data) then
    ("assignment").data
  else
    ("other").data

/-- One content rule of the classifier: a test on the lowercased content
together with the clause type it returns. -/
def contentRules : List ((Text → Bool) × Text) :=
  [(fun s => containsSub s (("limitation of liability").data) ||
      (containsSub s (("liable").data) && containsSub s (("not exceed").data)),
    ("limitation_of_liability").data),
   (fun s => containsSub s (("indemnif").data) || containsSub s (("hold harmless").data),
    ("indemnification").data),
   (fun s => containsSub s (("intellectual property").data) ||
      containsSub s (("copyright").data) ||
      containsSub s (("patent").data) ||
      containsSub s (("trademark").data),
    ("intellectual_property").data),
   (fun s => containsSub s (("terminat").data) || containsSub s (("cancel").data),
    ("termination").data),
   (fun s => containsSub s (("payment").data) ||
      containsSub s (("fee").data) ||
      containsSub s (("invoice").data) ||
      containsSub s (("price").data),
    ("payment_terms").data),
   (fun s => containsSub s (("confidential").data) || containsSub s (("proprietary").data),
    ("confidentiality").data),
   (fun s => containsSub s (("warrant").data) && !containsSub s (("without warrant").data),
    ("warranty").data),
   (fun s => containsSub s (("governing law").data) || containsSub s (("jurisdiction").data),
    ("governing_law").data),
   (fun s => containsSub s (("assign").data), ("assignment").data)]

/-- First-match-wins evaluation of a rule table, defaulting to `other`. -/
def applyRules (s : Text) : List ((Text → Bool) × Text) → Text
  | [] => ("other").data
  | r :: rs => if r.1 s then r.2 else applyRules s rs

theorem length_insertByKey {α : Type} (key : α → Nat) (x : α) (l : List α) :
    (insertByKey key x l).length = l.length + 1 := by
  induction l with
  | nil => rfl
  | cons y ys ih =>
    simp only [insertByKey]
    split <;> simp [ih]

theorem length_sortByKey {α : Type} (key : α → Nat) (l : List α) :
    (sortByKey key l).length = l.length := by
  induction l with
  | nil => rfl
  | cons x xs ih => simp [sortByKey, length_insertByKey, ih]

theorem mem_insertByKey {α : Type} (key : α → Nat) (x a : α) (l : List α) :
    a ∈ insertByKey key x l ↔ a = x ∨ a ∈ l := by
  induction l with
  | nil => simp [insertByKey]
  | cons y ys ih =>
    simp only [insertByKey]
    split <;> simp [ih] <;> tauto

theorem pairwise_insertByKey {α : Type} (key : α → Nat) (x : α) (l : List α)
    (h : l.Pairwise (fun a b => key a ≤ key b)) :
    (insertByKey key x l).Pairwise (fun a b => key a ≤ key b) := by
  induction l with
  | nil => simp [insertByKey]
  | cons y ys ih =>
    rcases List.pairwise_cons.mp h with ⟨hy, hys⟩
    simp only [insertByKey]
    split
    · rename_i hlt
      refine List.pairwise_cons.mpr ⟨?_, ih hys⟩
      intro b hb
      rcases (mem_insertByKey key x b ys).mp hb with rfl | hb
      · exact le_of_lt hlt
      · exact hy b hb
    · rename_i hge
      refine List.pairwise_cons.mpr ⟨?_, h⟩
      intro b hb
      rcases List.mem_cons.mp hb with rfl | hb
      · omega
      · exact le_trans (by omega) (hy b hb)

theorem pairwise_sortByKey {α : Type} (key : α → Nat) (l : List α) :
    (sortByKey key l).Pairwise (fun a b => key a ≤ key b) := by
  induction l with
  | nil => simp [sortByKey]
  | cons x xs ih => exact pairwise_insertByKey key x _ ih

theorem filter_insertByKey {α : Type} (key : α → Nat) (q : α → Bool) (k : Nat)
    (hq : ∀ a, q a = true → key a = k) (x : α) (l : List α) :
    (insertByKey key x l).filter q =
      if q x then x :: l.filter q else l.filter q := by
  induction l with
  | nil =>
    simp only [insertByKey, List.filter]
    cases hqx : q x <;> simp
  | cons y ys ih =>
    simp only [insertByKey]
    split
    · rename_i hlt
      cases hqy : q y with
      | false => simpa [List.filter, hqy] using ih
      | true =>
        cases hqx : q x with
        | false => simp [List.filter, hqy, hqx] at ih ⊢; exact ih
        | true =>
          exfalso
          have h1 := hq y hqy
          have h2 := hq x hqx
          omega
    · cases hqx : q x <;> simp [List.filter, hqx]

theorem filter_sortByKey {α : Type} (key : α → Nat) (q : α → Bool) (k : Nat)
    (hq : ∀ a, q a = true → key a = k) (l : List α) :
    (sortByKey key l).filter q = l.filter q := by
  induction l with
  | nil => rfl
  | cons x xs ih =>
    simp only [sortByKey]
    rw [filter_insertByKey key q k hq]
    cases hqx : q x <;> simp [List.filter, hqx, ih]

theorem find?_eq_head?_filter {α : Type} (p : α → Bool) (l : List α) :
    l.find? p = (l.filter p).head? := by
  induction l with
  | nil => rfl
  | cons x xs ih =>
    cases hp : p x
    · rw [List.find?_cons_of_neg _ (by simp [hp]), List.filter_cons_of_neg (by simp [hp]), ih]
    · rw [List.find?_cons_of_pos _ hp, List.filter_cons_of_pos (by simp [hp]), List.head?_cons]

theorem findMatchingLoop_eq_filterMap (golds : List GoldStandardClause) (cs : List Clause) :
    findMatchingLoop golds cs = cs.filterMap (matchOne golds) := by
  induction cs with
  | nil => rfl
  | cons c cs ih =>
    simp only [findMatchingLoop, List.filterMap_cons]
    cases matchOne golds c <;> simp [ih]

theorem findMatchingLoop_nil_golds (cs : List Clause) :
    findMatchingLoop [] cs = [] := by
  induction cs with
  | nil => rfl
  | cons c cs ih => simpa [findMatchingLoop, matchOne] using ih

theorem getIntelligentFallback_eq_map (ms : List MatchedClause) :
    getIntelligentFallbackWithMatchedClauses ms = ms.map fallbackOne := by
  simp only [getIntelligentFallbackWithMatchedClauses]
  split
  · rename_i hcond
    rw [List.length_map] at hcond
    omega
  · rfl

theorem fallbackOne_originalClause (m : MatchedClause) :
    (fallbackOne m).originalClause = m.userClause.content := by
  simp only [fallbackOne]
  repeat' split
  all_goals rfl

theorem revised_ne_nil (x y : Text) : ("REVISED ").data ++ x ++ y ≠ [] := by
  have h8 : ("REVISED ").data = ['R', 'E', 'V', 'I', 'S', 'E', 'D', ' '] := rfl
  rw [h8]
  simp

theorem fallbackOne_wellFormed (m : MatchedClause) :
    (fallbackOne m).originalClause = m.userClause.content ∧
    (fallbackOne m).explanation ≠ [] ∧
    (fallbackOne m).suggestion ≠ [] ∧
    ((fallbackOne m).riskLevel = ("high").data ∨ (fallbackOne m).riskLevel = ("medium").data ∨
      (fallbackOne m).riskLevel = ("low").data) := by
  simp only [fallbackOne]
  repeat' split
  all_goals dsimp only
  all_goals refine ⟨rfl, by decide, ?_, by decide⟩
  all_goals first
    | decide
    | exact revised_ne_nil _ _

theorem forall₂_map_self {α β : Type} {r : α → β → Prop} (f : α → β)
    (h : ∀ a, r a (f a)) (l : List α) : List.Forall₂ r l (l.map f) := by
  induction l with
  | nil => exact List.Forall₂.nil
  | cons x xs ih => exact List.Forall₂.cons (h x) ih

theorem getD_set_self {α : Type} (d : α) :
    ∀ (l : List α) (a : Nat) (x : α), a < l.length → (l.set a x).getD a d = x := by
  intro l
  induction l with
  | nil => intro a x h; simp at h
  | cons y ys ih =>
    intro a x h
    cases a with
    | zero => rfl
    | succ a =>
      simp only [List.set, List.getD_cons_succ]
      exact ih a x (by simpa using h)

theorem getD_append_self {α : Type} (d : α) :
    ∀ (l : List α) (x : α), (l ++ [x]).getD l.length d = x := by
  intro l
  induction l with
  | nil => intro x; rfl
  | cons y ys ih => intro x; simpa [List.getD_cons_succ] using ih x

theorem matchLoopHeap_clausesArr (g : List GoldStandardClause) (a : Nat) :
    ∀ (cs : List Clause) (h : Heap), (matchLoopHeap g a cs h).clausesArr = h.clausesArr := by
  intro cs
  induction cs with
  | nil => intro h; rfl
  | cons c cs ih =>
    intro h
    simp only [matchLoopHeap]
    cases matchOne g c <;> simp [ih, heapPushMatched]

theorem matchLoopHeap_goldsArr (g : List GoldStandardClause) (a : Nat) :
    ∀ (cs : List Clause) (h : Heap), (matchLoopHeap g a cs h).goldsArr = h.goldsArr := by
  intro cs
  induction cs with
  | nil => intro h; rfl
  | cons c cs ih =>
    intro h
    simp only [matchLoopHeap]
    cases matchOne g c <;> simp [ih, heapPushMatched]

theorem matchLoopHeap_length (g : List GoldStandardClause) (a : Nat) :
    ∀ (cs : List Clause) (h : Heap),
      (matchLoopHeap g a cs h).matchedArrs.length = h.matchedArrs.length := by
  intro cs
  induction cs with
  | nil => intro h; rfl
  | cons c cs ih =>
    intro h
    simp only [matchLoopHeap]
    cases matchOne g c <;> simp [ih, heapPushMatched, List.length_set]

theorem matchLoopHeap_getD (g : List GoldStandardClause) (a : Nat) :
    ∀ (cs : List Clause) (h : Heap), a < h.matchedArrs.length →
      (matchLoopHeap g a cs h).matchedArrs.getD a [] =
        h.matchedArrs.getD a [] ++ findMatchingLoop g cs := by
  intro cs
  induction cs with
  | nil => intro h _; simp [matchLoopHeap, findMatchingLoop]
  | cons c cs ih =>
    intro h ha
    simp only [matchLoopHeap, findMatchingLoop]
    cases hm : matchOne g c with
    | none => exact ih h ha
    | some m =>
      have hpush : (heapPushMatched h a m).matchedArrs.getD a [] =
          h.matchedArrs.getD a [] ++ [m] :=
        getD_set_self [] h.matchedArrs a _ ha
      rw [ih (heapPushMatched h a m) (by simpa [heapPushMatched, List.length_set] using ha),
        hpush, List.append_assoc, List.singleton_append]

/-- A gold standard of type `other`, used in concrete scenarios. -/
def sampleGoldOther : GoldStandardClause :=
  { type := ("other").data, content := ("Generic gold standard clause text.").data }

/-- A concrete payment clause, used in concrete scenarios. -/
def sampleClause : Clause :=
  { content := ("Payment is due in thirty days.").data, type := some (("payment_terms").data) }

/-- A concrete matched pair, used in concrete scenarios. -/
def samplePair : MatchedClause :=
  { userClause := sampleClause, goldStandard := sampleGoldOther, similarity := 0.8 }

/-- Builds a matched pair whose clause has the given type string. -/
def pairOfType (s : String) : MatchedClause :=
  { userClause := { content := (s).data, type := some ((s).data) },
    goldStandard := sampleGoldOther, similarity := 0.8 }

/-- One matched pair of each of the ten taxonomy types, in a scrambled
input order. -/
def oneOfEachTypePairs : List MatchedClause :=
  [pairOfType ("warranty"), pairOfType ("other"), pairOfType ("governing_law"),
   pairOfType ("intellectual_property"), pairOfType ("assignment"),
   pairOfType ("limitation_of_liability"), pairOfType ("payment_terms"),
   pairOfType ("termination"), pairOfType ("confidentiality"),
   pairOfType ("indemnification")]

/-- Claim C7: empty inputs yield empty outputs, not exceptions: `analyze`
applied to an empty clause list returns the empty list, and `analyze`
applied to a non-empty clause list with an empty reference list also
returns the empty list, in both cases as a valid result propagated to the
caller (the theorem covers every clause list, non-empty or not). -/
theorem C7_empty_inputs_empty_outputs :
    (∀ (hasApiKey : Bool) (response : Option (List NegotiationPoint)) (document : Document)
        (golds : List GoldStandardClause),
      analyzeContract hasApiKey response document [] golds = []) ∧
    (∀ (hasApiKey : Bool) (response : Option (List NegotiationPoint)) (document : Document)
        (clauses : List Clause),
      analyzeContract hasApiKey response document clauses [] = []) := by
  constructor
  · intro hasApiKey response document golds
    rfl
  · intro hasApiKey response document clauses
    simp [analyzeContract, findMatchingClauses, findMatchingLoop_nil_golds, sortByKey,
      generateAnalysis]

/-- Claim C2 counterexample: the Engine performs no count validation on a
parsed response; with one input pair and a parsed (truthy, in JavaScript)
empty `negotiationPoints` array, `generateAnalysis` returns zero
recommendations, fewer than the one input pair, refuting the claimed
`never returns fewer Recommendations than input pairs`. -/
theorem C2_counterexample :
    (generateAnalysis true (some []) [samplePair]).length <
      ([samplePair] : List MatchedClause).length := by
  decide

/-- Claim C2 amended: the Engine treats a failed call, missing content,
unparsable response, or a missing/falsy `negotiationPoints` field as total
failure of that call and falls back per-pair, producing exactly one
Recommendation per input pair; but it performs no count or shape
validation on a successfully parsed truthy `negotiationPoints` array,
which it returns verbatim for any non-empty input, so such a response may
yield fewer Recommendations than input pairs. -/
theorem C2_fallback_count_no_validation :
    (∀ (response : Option (List NegotiationPoint)) (ms : List MatchedClause),
      (generateAnalysis false response ms).length = ms.length) ∧
    (∀ ms : List MatchedClause,
      (generateAnalysis true none ms).length = ms.length) ∧
    (∀ (m : MatchedClause) (ms : List MatchedClause) (pts : List NegotiationPoint),
      generateAnalysis true (some pts) (m :: ms) = pts) := by
  refine ⟨?_, ?_, ?_⟩
  · intro response ms
    by_cases h : ms.length = 0
    · simp [generateAnalysis, h]
    · simp [generateAnalysis, h, getIntelligentFallback_eq_map]
  · intro ms
    by_cases h : ms.length = 0
    · simp [generateAnalysis, h]
    · simp [generateAnalysis, h, getIntelligentFallback_eq_map]
  · intro m ms pts
    simp [generateAnalysis]

/-- Well-formedness of one Recommendation for one matched pair, as claim
C5 requires it: verbatim original clause, non-empty explanation and
suggestion, and a risk level among `high`, `medium`, `low`. -/
def wellFormedFor (m : MatchedClause) (r : NegotiationPoint) : Prop :=
  r.originalClause = m.userClause.content ∧ r.explanation ≠ [] ∧ r.suggestion ≠ [] ∧
    (r.riskLevel = ("high").data ∨ r.riskLevel = ("medium").data ∨ r.riskLevel = ("low").data)

/-- Claim C5: when the generation collaborator is unavailable (no API
key) or always fails, `recommend` applied to any list of matched pairs
returns exactly one Recommendation per input pair, in the same order
(stated as an index-aligned `Forall₂`), each with non-empty explanation
and suggestion, a risk level in the high/medium/low set, and
`originalClause` equal verbatim to the pair's clause content. -/
theorem C5_fallback_complete_wellformed :
    (∀ (response : Option (List NegotiationPoint)) (ms : List MatchedClause),
      List.Forall₂ wellFormedFor ms (generateAnalysis false response ms)) ∧
    (∀ ms : List MatchedClause,
      List.Forall₂ wellFormedFor ms (generateAnalysis true none ms)) := by
  have key : ∀ ms : List MatchedClause, List.Forall₂ wellFormedFor ms (ms.map fallbackOne) :=
    fun ms => forall₂_map_self fallbackOne (fun m => fallbackOne_wellFormed m) ms
  constructor
  · intro response ms
    by_cases h : ms.length = 0
    · have hnil : ms = [] := List.length_eq_zero.mp h
      subst hnil
      exact List.Forall₂.nil
    · have hg : generateAnalysis false response ms = ms.map fallbackOne := by
        simp [generateAnalysis, h, getIntelligentFallback_eq_map]
      rw [hg]
      exact key ms
  · intro ms
    by_cases h : ms.length = 0
    · have hnil : ms = [] := List.length_eq_zero.mp h
      subst hnil
      exact List.Forall₂.nil
    · have hg : generateAnalysis true none ms = ms.map fallbackOne := by
        simp [generateAnalysis, h, getIntelligentFallback_eq_map]
      rw [hg]
      exact key ms

/-- Claim C4: for every clause and every reference set, the Matcher
emits: if one or more references share the clause's type, a pair with the
first such reference (`find?`, i.e. lowest insertion index) and
confidence 0.8; otherwise, if the reference set is non-empty, a pair with
the first reference of type `other` if present else the first reference
in the set, with confidence 0.5; and if the reference set is empty, no
pair at all for that clause; the loop emits at most one pair per clause
in input order (`filterMap`). -/
theorem C4_matcher_selection :
    (∀ (golds : List GoldStandardClause) (cs : List Clause),
      findMatchingLoop golds cs = cs.filterMap (matchOne golds)) ∧
    (∀ (golds : List GoldStandardClause) (c : Clause),
      matchOne golds c =
        match golds.find? (fun gold => c.type == some gold.type) with
        | some g => some { userClause := c, goldStandard := g, similarity := 0.8 }
        | none =>
          match golds.find? (fun g => g.type == ("other").data) with
          | some g => some { userClause := c, goldStandard := g, similarity := 0.5 }
          | none =>
            match golds.head? with
            | some g => some { userClause := c, goldStandard := g, similarity := 0.5 }
            | none => none) ∧
    (∀ c : Clause, matchOne [] c = none) := by
  refine ⟨findMatchingLoop_eq_filterMap, ?_, fun c => rfl⟩
  intro golds c
  rw [find?_eq_head?_filter]
  cases hf : golds.filter (fun gold => c.type == some gold.type) with
  | nil =>
    simp only [matchOne, hf, List.head?_nil]
    cases golds.find? (fun g => g.type == ("other").data) <;> rfl
  | cons g gs =>
    simp only [matchOne, hf, List.head?_cons]

/-- Claim C1: the Ranker sorts pairs ascending by the fixed priority
table (limitation_of_liability=1 through other=10, unknown or unset types
treated as 10) and returns exactly the first `min(len(pairs), limit)`
entries of the stable sort, the source hard-coding `limit = 5`
(`findMatchingClauses` equals `rank` at 5); given one pair of each
taxonomy type the output is ordered `limitation_of_liability` first and
holds exactly the five highest-priority types, and rank of an empty list
is empty. -/
theorem C1_ranker_sorts_and_truncates :
    (∀ (clauses : List Clause) (emb : List (List ℚ)) (golds : List GoldStandardClause),
      findMatchingClauses clauses emb golds = rank (findMatchingLoop golds clauses) 5) ∧
    (∀ (pairs : List MatchedClause) (limit : Nat),
      (rank pairs limit).length = min pairs.length limit) ∧
    (∀ (pairs : List MatchedClause) (limit : Nat),
      (rank pairs limit).Pairwise (fun a b => matchedPriority a ≤ matchedPriority b)) ∧
    (∀ (pairs : List MatchedClause) (limit : Nat),
      ∃ rest, sortByKey matchedPriority pairs = rank pairs limit ++ rest) ∧
    (∀ limit : Nat, rank [] limit = []) ∧
    priorityOfClauseType (some (("zzz").data)) = 10 ∧
    priorityOfClauseType none = 10 ∧
    (rank oneOfEachTypePairs 5).map (fun m => m.userClause.type) =
      [some (("limitation_of_liability").data), some (("indemnification").data),
       some (("intellectual_property").data), some (("termination").data),
       some (("payment_terms").data)] := by
  refine ⟨fun _ _ _ => rfl, ?_, ?_, ?_, fun _ => List.take_nil, by decide, by decide, by decide⟩
  · intro pairs limit
    rw [rank, List.length_take, length_sortByKey]
    omega
  · intro pairs limit
    exact (pairwise_sortByKey matchedPriority pairs).sublist (List.take_sublist _ _)
  · intro pairs limit
    exact ⟨(sortByKey matchedPriority pairs).drop limit, (List.take_append_drop _ _).symm⟩

/-- Claim C6: the Ranker's sort is stable: for every input pair list, the
pairs of any single priority value, and in particular the pairs of any
single clause type, appear in the sorted output exactly in their input
order (filter equality), and the truncated rank output preserves that
order as a prefix. -/
theorem C6_rank_sort_stable :
    (∀ (pairs : List MatchedClause) (k : Nat),
      (sortByKey matchedPriority pairs).filter (fun m => matchedPriority m == k) =
        pairs.filter (fun m => matchedPriority m == k)) ∧
    (∀ (pairs : List MatchedClause) (t : Option Text),
      (sortByKey matchedPriority pairs).filter (fun m => m.userClause.type == t) =
        pairs.filter (fun m => m.userClause.type == t)) ∧
    (∀ (pairs : List MatchedClause) (limit k : Nat),
      ∃ rest, pairs.filter (fun m => matchedPriority m == k) =
        (rank pairs limit).filter (fun m => matchedPriority m == k) ++ rest) := by
  refine ⟨?_, ?_, ?_⟩
  · intro pairs k
    exact filter_sortByKey matchedPriority _ k (fun a ha => eq_of_beq ha) pairs
  · intro pairs t
    refine filter_sortByKey matchedPriority _ (priorityOfClauseType t) ?_ pairs
    intro a ha
    have : a.userClause.type = t := eq_of_beq ha
    rw [matchedPriority, this]
  · intro pairs limit k
    have h1 : pairs.filter (fun m => matchedPriority m == k) =
        (sortByKey matchedPriority pairs).filter (fun m => matchedPriority m == k) :=
      (filter_sortByKey matchedPriority _ k (fun a ha => eq_of_beq ha) pairs).symm
    have h2 : (sortByKey matchedPriority pairs).filter (fun m => matchedPriority m == k) =
        ((sortByKey matchedPriority pairs).take limit).filter (fun m => matchedPriority m == k) ++
          ((sortByKey matchedPriority pairs).drop limit).filter
            (fun m => matchedPriority m == k) := by
      conv_lhs => rw [← List.take_append_drop limit (sortByKey matchedPriority pairs)]
      rw [List.filter_append]
    exact ⟨_, h1.trans h2⟩

/-- Claim C3 counterexample: on the input `cancel` the source classifier
returns `termination` (the content rule is `terminat` OR `cancel`), while
the classifier described by the claim matches no rule and returns
`other`; the claimed rule list and order are not the code's. -/
theorem C3_counterexample :
    identifyClauseType (("cancel").data) none = ("termination").data ∧
    claimClassify (("cancel").data) = ("other").data ∧
    ("termination").data ≠ ("other").data := by
  decide

/-- Claim C3 amended: the classifier is deterministic and
case-insensitive (its result depends only on the lowercased content and
lowercased hint), and on content alone it applies, first match wins, the
rules: limitation of liability OR (liable AND not exceed); indemnif OR
hold harmless; intellectual property/copyright/patent/trademark; terminat
OR cancel; payment/fee/invoice/price; confidential OR proprietary;
warrant AND NOT without warrant; governing law OR jurisdiction; assign;
default `other`. -/
theorem C3_classifier_rules :
    (∀ (c₁ c₂ : Text) (h₁ h₂ : Option Text),
      lowerText c₁ = lowerText c₂ → h₁.map lowerText = h₂.map lowerText →
      identifyClauseType c₁ h₁ = identifyClauseType c₂ h₂) ∧
    (∀ c : Text, identifyClauseType c none = applyRules (lowerText c) contentRules) := by
  constructor
  · intro c₁ c₂ h₁ h₂ hc hh
    cases h₁ with
    | none =>
      cases h₂ with
      | none => simp only [identifyClauseType, hc]
      | some b => exact absurd hh (by simp)
    | some a =>
      cases h₂ with
      | none => exact absurd hh (by simp)
      | some b =>
        have hb : lowerText a = lowerText b := by simpa using hh
        simp only [identifyClauseType, hc, hb]
  · intro c
    rfl

/-- Claim C3 amended witness at a concrete input: case folding does not
change the classification of `CANCEL` versus `cancel`. -/
theorem C3_classifier_rules_witness :
    lowerText (("CANCEL").data) = lowerText (("cancel").data) ∧
    identifyClauseType (("CANCEL").data) none = identifyClauseType (("cancel").data) none :=
  ⟨by decide, C3_classifier_rules.1 _ _ _ _ (by decide) rfl⟩

/-- Claim C10 counterexample: the hint `liability recipient` contains the
substring `ip`, yet classification returns `limitation_of_liability`, not
`intellectual_property`, because the liability hint rule is checked
first; the claimed `any hint containing ip` is too strong. -/
theorem C10_counterexample :
    containsSub (lowerText (("liability recipient").data)) (("ip").data) = true ∧
    identifyClauseType (("payment of fees").data) (some (("liability recipient").data)) =
      ("limitation_of_liability").data ∧
    ("limitation_of_liability").data ≠ ("intellectual_property").data := by
  decide

/-- Claim C10 amended: the hint is checked before the content, by mere
substring tests; for every content string, any hint whose lowercase form
contains the substring `ip` and contains none of the earlier hint
keywords `liability`, `limitation`, `indemnif` makes classification
return `intellectual_property`, regardless of what keywords the content
itself contains. -/
theorem C10_hint_ip_shortcut :
    ∀ (content hint : Text),
      containsSub (lowerText hint) (("liability").data) = false →
      containsSub (lowerText hint) (("limitation").data) = false →
      containsSub (lowerText hint) (("indemnif").data) = false →
      containsSub (lowerText hint) (("ip").data) = true →
      identifyClauseType content (some hint) = ("intellectual_property").data := by
  intro content hint h1 h2 h3 h4
  simp only [identifyClauseType, h1, h2, h3, h4]
  simp

/-- Claim C10 amended witness: the hint `description` contains `ip`, so a
clause whose content names payment and invoices is still classified
`intellectual_property`. -/
theorem C10_hint_ip_shortcut_witness :
    identifyClauseType (("Payment due within 30 days of invoice.").data)
      (some (("description").data)) = ("intellectual_property").data :=
  C10_hint_ip_shortcut _ _ (by decide) (by decide) (by decide) (by decide)

/-- The eight clause types for which the fallback path has a dedicated
canned template; `assignment` and `other` are absent. -/
def dedicatedTemplateTypes : List Text :=
  [("limitation_of_liability").data, ("termination").data, ("intellectual_property").data,
   ("indemnification").data, ("payment_terms").data, ("confidentiality").data,
   ("warranty").data, ("governing_law").data]

/-- A matched pair whose clause has the taxonomy type `assignment`. -/
def assignmentPair : MatchedClause :=
  { userClause :=
      { content := ("Neither party may assign this Agreement.").data,
        type := some (("assignment").data) },
    goldStandard := sampleGoldOther, similarity := 0.8 }

/-- A matched pair whose clause carries a type outside the taxonomy. -/
def unknownTypePair : MatchedClause :=
  { userClause :=
      { content := ("Some unusual provision.").data,
        type := some (("zzz_zzz").data) },
    goldStandard := sampleGoldOther, similarity := 0.8 }

set_option maxRecDepth 8192 in
/-- Claim C8 counterexample: the taxonomy type `assignment` has no
dedicated template: its fallback Recommendation carries the generic
provision explanation, letter for letter the same text an unknown type
receives, with the generic risk level `medium`; so there is not one
dedicated canned template per taxonomy type. -/
theorem C8_counterexample :
    (fallbackOne assignmentPair).explanation = genericExplanationText ∧
    (fallbackOne assignmentPair).explanation = (fallbackOne unknownTypePair).explanation ∧
    (fallbackOne assignmentPair).riskLevel = ("medium").data ∧
    (fallbackOne assignmentPair).title = ("Assignment").data := by
  decide

/-- Claim C8 amended: the fallback path selects a deterministic template
keyed by `clause.type`, with one dedicated canned
title/explanation/riskLevel/suggestion template for each of the eight
types of `dedicatedTemplateTypes`; for every clause whose type is not one
of those eight (including `assignment`, `other`, unknown and unset
types), it emits the generic provision template with riskLevel `medium`
and the clause's own content as `originalClause`. -/
theorem C8_fallback_template_dispatch :
    (∀ (i d : Nat) (cont : Text) (rl : Option Text) (pos : Nat)
        (g : GoldStandardClause) (s : ℚ),
      fallbackOne ⟨⟨i, d, cont, some (("limitation_of_liability").data), rl, pos⟩, g, s⟩ =
        { title := ("Limitation of Liability").data, originalClause := cont,
          explanation := lolExplanationText, suggestion := lolSuggestionText,
          riskLevel := ("high").data }) ∧
    (∀ (i d : Nat) (cont : Text) (rl : Option Text) (pos : Nat)
        (g : GoldStandardClause) (s : ℚ),
      fallbackOne ⟨⟨i, d, cont, some (("termination").data), rl, pos⟩, g, s⟩ =
        { title := ("Termination Clause").data, originalClause := cont,
          explanation := terminationExplanationText, suggestion := terminationSuggestionText,
          riskLevel := ("medium").data }) ∧
    (∀ (i d : Nat) (cont : Text) (rl : Option Text) (pos : Nat)
        (g : GoldStandardClause) (s : ℚ),
      fallbackOne ⟨⟨i, d, cont, some (("intellectual_property").data), rl, pos⟩, g, s⟩ =
        { title := ("Intellectual Property Rights").data, originalClause := cont,
          explanation := ipExplanationText, suggestion := ipSuggestionText,
          riskLevel := ("high").data }) ∧
    (∀ (i d : Nat) (cont : Text) (rl : Option Text) (pos : Nat)
        (g : GoldStandardClause) (s : ℚ),
      fallbackOne ⟨⟨i, d, cont, some (("indemnification").data), rl, pos⟩, g, s⟩ =
        { title := ("Indemnification").data, originalClause := cont,
          explanation := indemnificationExplanationText,
          suggestion := indemnificationSuggestionText,
          riskLevel := ("medium").data }) ∧
    (∀ (i d : Nat) (cont : Text) (rl : Option Text) (pos : Nat)
        (g : GoldStandardClause) (s : ℚ),
      fallbackOne ⟨⟨i, d, cont, some (("payment_terms").data), rl, pos⟩, g, s⟩ =
        { title := ("Payment Terms").data, originalClause := cont,
          explanation := paymentExplanationText, suggestion := paymentSuggestionText,
          riskLevel := ("low").data }) ∧
    (∀ (i d : Nat) (cont : Text) (rl : Option Text) (pos : Nat)
        (g : GoldStandardClause) (s : ℚ),
      fallbackOne ⟨⟨i, d, cont, some (("confidentiality").data), rl, pos⟩, g, s⟩ =
        { title := ("Confidentiality").data, originalClause := cont,
          explanation := confidentialityExplanationText,
          suggestion := confidentialitySuggestionText,
          riskLevel := ("medium").data }) ∧
    (∀ (i d : Nat) (cont : Text) (rl : Option Text) (pos : Nat)
        (g : GoldStandardClause) (s : ℚ),
      fallbackOne ⟨⟨i, d, cont, some (("warranty").data), rl, pos⟩, g, s⟩ =
        { title := ("Warranty").data, originalClause := cont,
          explanation := warrantyExplanationText, suggestion := warrantySuggestionText,
          riskLevel := ("medium").data }) ∧
    (∀ (i d : Nat) (cont : Text) (rl : Option Text) (pos : Nat)
        (g : GoldStandardClause) (s : ℚ),
      fallbackOne ⟨⟨i, d, cont, some (("governing_law").data), rl, pos⟩, g, s⟩ =
        { title := ("Governing Law and Jurisdiction").data, originalClause := cont,
          explanation := governingLawExplanationText, suggestion := governingLawSuggestionText,
          riskLevel := ("low").data }) ∧
    (∀ m : MatchedClause, (∀ t ∈ dedicatedTemplateTypes, m.userClause.type ≠ some t) →
      fallbackOne m =
        { title := clauseTitleOf m.userClause.type, originalClause := m.userClause.content,
          explanation := genericExplanationText,
          suggestion := ("REVISED ").data ++
            (clauseTitleOf m.userClause.type).map Char.toUpper ++ genericRewriteTailText,
          riskLevel := ("medium").data }) := by
  refine ⟨fun _ _ _ _ _ _ _ => rfl, fun _ _ _ _ _ _ _ => rfl, fun _ _ _ _ _ _ _ => rfl,
    fun _ _ _ _ _ _ _ => rfl, fun _ _ _ _ _ _ _ => rfl, fun _ _ _ _ _ _ _ => rfl,
    fun _ _ _ _ _ _ _ => rfl, fun _ _ _ _ _ _ _ => rfl, ?_⟩
  intro m hm
  simp only [fallbackOne]
  rw [if_neg (hm _ (by decide)), if_neg (hm _ (by decide)), if_neg (hm _ (by decide)),
    if_neg (hm _ (by decide)), if_neg (hm _ (by decide)), if_neg (hm _ (by decide)),
    if_neg (hm _ (by decide)), if_neg (hm _ (by decide))]

/-- Claim C8 amended witness: the generic branch of the dispatch theorem
applied to the concrete `assignment` pair. -/
theorem C8_fallback_template_dispatch_witness :
    fallbackOne assignmentPair =
      { title := clauseTitleOf assignmentPair.userClause.type
        originalClause := assignmentPair.userClause.content
        explanation := genericExplanationText
        suggestion := ("REVISED ").data ++
          (clauseTitleOf assignmentPair.userClause.type).map Char.toUpper ++
          genericRewriteTailText
        riskLevel := ("medium").data } :=
  C8_fallback_template_dispatch.2.2.2.2.2.2.2.2 assignmentPair (by decide)

/-- Claim C9: the Matcher never mutates its inputs: running the heap
embedding of `findMatchingClauses` leaves the clause array and the
reference array of the heap unchanged (only the locally allocated result
array is written, by `push` and the in-place sort), and the returned
value agrees with the pure embedding of the function. -/
theorem C9_matcher_frame (h : Heap) :
    (findMatchingClausesHeap h).1.clausesArr = h.clausesArr ∧
    (findMatchingClausesHeap h).1.goldsArr = h.goldsArr ∧
    (findMatchingClausesHeap h).2 = findMatchingClauses h.clausesArr [] h.goldsArr := by
  have hlen1 : h.matchedArrs.length < (h.matchedArrs ++ [[]]).length := by simp
  refine ⟨?_, ?_, ?_⟩
  · simp only [findMatchingClausesHeap, heapAllocMatched, heapSortMatched]
    rw [matchLoopHeap_clausesArr]
  · simp only [findMatchingClausesHeap, heapAllocMatched, heapSortMatched]
    rw [matchLoopHeap_goldsArr]
  · simp only [findMatchingClausesHeap, heapAllocMatched, heapSortMatched]
    have hlen2 : h.matchedArrs.length <
        (matchLoopHeap h.goldsArr h.matchedArrs.length h.clausesArr
          { h with matchedArrs := h.matchedArrs ++ [[]] }).matchedArrs.length := by
      rw [matchLoopHeap_length]
      simpa using hlen1
    rw [getD_set_self [] _ _ _ hlen2,
      matchLoopHeap_getD h.goldsArr h.matchedArrs.length h.clausesArr _ (by simpa using hlen1)]
    rw [show ({ h with matchedArrs := h.matchedArrs ++ [[]] } : Heap).matchedArrs.getD
        h.matchedArrs.length [] = [] from getD_append_self [] h.matchedArrs []]
    rfl
